import Mathlib

/-!
Shallow embedding of `glQiwiApi/core/session/holder.py`: a lazy, swappable
HTTP-session lifecycle manager.

Modelling choices:

* An aiohttp `ClientSession` object is modelled by `SessionObj`: an identity
  `sid` (object identity; fresh ids model fresh objects) together with the
  keyword-argument mapping it was constructed from.  Its mutable `closed`
  flag lives in a `World` (the set of ids whose sessions have been closed),
  so that closure by the holder and closure by an external actor are both
  representable as world updates.
* Python `dict` keyword arguments are association lists with unique keys in
  insertion order; `dict.update` is `dictUpdate` (in-place overwrite of an
  existing key, append of a new one, later entries winning).
* `aiohttp.ClientSession(**kwargs)` may raise on construction; the opaque
  transport constructor behaviour is a parameter `ctorOk : KwArgs → Bool`
  deciding whether construction with the given kwargs succeeds.  A raise is
  an `Except.error`; it happens before the assignment to `self._session`,
  so a failed allocation leaves the holder unchanged.
* `async with holder` semantics (Python language semantics for
  `__aenter__` / `__aexit__`) is `runScope`: call `aenter`; if it raises,
  the error propagates and `__aexit__` is not called; otherwise run the
  body and call `aexit` unconditionally, re-raising any body error.  The
  trace of `ScopeEvent`s records each holder-method invocation so that
  "close invoked exactly once" is a statement about the trace.
-/

namespace GlQiwiApi

/-- An opaque configuration value (a Python object passed as a kwarg). -/
inductive ConfigVal where
  | str : String → ConfigVal
  | num : Int → ConfigVal
  | flag : Bool → ConfigVal
deriving DecidableEq

/-- A Python `dict` of keyword arguments: association list, unique keys in
insertion order. -/
abbrev KwArgs := List (String × ConfigVal)

/-- `d[k]` lookup: first binding of the key (keys are unique in a dict). -/
def dictGet : KwArgs → String → Option ConfigVal
  | [], _ => none
  | (k', v') :: tl, k => if k' = k then some v' else dictGet tl k

/-- Last binding of a key in a list of overrides (the one `dict.update`
keeps: last write wins). -/
def dictGetLast : KwArgs → String → Option ConfigVal
  | [], _ => none
  | (k', v') :: tl, k =>
    match dictGetLast tl k with
    | some v => some v
    | none => if k' = k then some v' else none

/-- `d[k] = v` on a dict: overwrite the existing binding in place, append
if the key is absent. -/
def dictInsert : KwArgs → String → ConfigVal → KwArgs
  | [], k, v => [(k, v)]
  | (k', v') :: tl, k, v =>
    if k' = k then (k, v) :: tl else (k', v') :: dictInsert tl k v

/-- Python `d.update(overrides)`: fold the overrides into the dict, later
entries overwriting earlier ones and existing keys. -/
def dictUpdate (m overrides : KwArgs) : KwArgs :=
  overrides.foldl (fun acc p => dictInsert acc p.1 p.2) m

/-- `holder.py` lines 15-20: the `Response` dataclass (the normalized
response shape). -/
structure Response where
  status_code : Int
  body : List Nat
  headers : List (String × String)
  content_type : String
deriving DecidableEq

/-- An `aiohttp.ClientSession` object: its identity and the kwargs it was
constructed from (immutable after construction).  Its `closed` flag is
shared mutable state and lives in `World`. -/
structure SessionObj where
  sid : Nat
  kwargs : KwArgs
deriving DecidableEq

/-- The transport-library world: a supply of fresh object identities and
the set of session ids whose `closed` flag is set.  External actors may
close a session by adding its id to `closedIds`. -/
structure World where
  nextId : Nat
  closedIds : List Nat
deriving DecidableEq

/-- `session.closed` (the transport session's own closed-flag). -/
def sessionClosed (w : World) (sid : Nat) : Bool :=
  w.closedIds.contains sid

/-- `await session.close()` on the transport session: sets its
closed-flag. -/
def sessionNativeClose (w : World) (sid : Nat) : World :=
  { w with closedIds := sid :: w.closedIds }

/-- `aiohttp.ClientSession(**kwargs)` when construction succeeds: a fresh
object built from the given kwargs. -/
def newClientSession (kwargs : KwArgs) (w : World) : SessionObj × World :=
  (⟨w.nextId, kwargs⟩, { w with nextId := w.nextId + 1 })

/-- Allocation failure raised by the transport constructor
(spec section 7: `AllocationError`). -/
inductive AllocError where
  | allocationFailed : AllocError
deriving DecidableEq

/-- `AbstractSessionHolder.__init__` state (lines 31-33): `self._session`
(initially `None`) and `self._session_kwargs`. -/
structure Holder where
  session : Option SessionObj
  session_kwargs : KwArgs
deriving DecidableEq

/-- `AbstractSessionHolder(**kwargs)`: fresh holder, no session allocated. -/
def mkHolder (kwargs : KwArgs) : Holder :=
  ⟨none, kwargs⟩

/-- The session that `_session_in_working_order` (lines 84-85) is about:
`some s` exactly when `self._session is not None and
self._session.closed is False`, and in that case `s` is the stored
session. -/
def workingSession (hld : Holder) (w : World) : Option SessionObj :=
  match hld.session with
  | none => none
  | some s => if sessionClosed w s.sid then none else some s

/-- `AiohttpSessionHolder._session_in_working_order` (lines 84-85). -/
def _session_in_working_order (hld : Holder) (w : World) : Bool :=
  (workingSession hld w).isSome

/-- `AiohttpSessionHolder._instantiate_new_session` (lines 87-91):
construct a session from the current kwargs, store it in
`self._session`, return it.  A constructor raise propagates before the
assignment happens. -/
def _instantiate_new_session (ctorOk : KwArgs → Bool) (hld : Holder)
    (w : World) : Except AllocError (SessionObj × Holder × World) :=
  if ctorOk hld.session_kwargs then
    let p := newClientSession hld.session_kwargs w
    .ok (p.1, { hld with session := some p.1 }, p.2)
  else
    .error .allocationFailed

/-- `AiohttpSessionHolder.get_session` (lines 79-82): if the session is in
working order return it (it is exactly `workingSession`), otherwise
instantiate a new one. -/
def get_session (ctorOk : KwArgs → Bool) (hld : Holder) (w : World) :
    Except AllocError (SessionObj × Holder × World) :=
  match workingSession hld w with
  | some s => .ok (s, hld, w)
  | none => _instantiate_new_session ctorOk hld w

/-- `AiohttpSessionHolder.close` (lines 67-69): if the session is in
working order, `await self._session.close()`; otherwise do nothing. -/
def close (hld : Holder) (w : World) : Holder × World :=
  match workingSession hld w with
  | some s => (hld, sessionNativeClose w s.sid)
  | none => (hld, w)

/-- The raw `aiohttp.ClientResponse` surface used by `parse_response`:
status, body bytes (what `await response.read()` yields), headers,
content type. -/
structure ClientResponse where
  status : Int
  bodyBytes : List Nat
  headers : List (String × String)
  content_type : String
deriving DecidableEq

/-- `await response.read()`: fully drains and returns the body bytes. -/
def responseRead (resp : ClientResponse) : List Nat :=
  resp.bodyBytes

/-- `AiohttpSessionHolder.parse_response` (lines 71-77).  It is a method of
the holder but reads no holder state. -/
def parse_response (_hld : Holder) (resp : ClientResponse) : Response :=
  { status_code := resp.status
    body := responseRead resp
    headers := resp.headers
    content_type := resp.content_type }

/-- `AbstractSessionHolder.update_session_kwargs` (lines 47-48):
`self._session_kwargs.update(kwargs)`. -/
def update_session_kwargs (hld : Holder) (overrides : KwArgs) : Holder :=
  { hld with session_kwargs := dictUpdate hld.session_kwargs overrides }

/-- `AbstractSessionHolder.__aenter__` (lines 50-52):
`self._session = await self.get_session(); return self._session`. -/
def aenter (ctorOk : KwArgs → Bool) (hld : Holder) (w : World) :
    Except AllocError (SessionObj × Holder × World) :=
  match get_session ctorOk hld w with
  | .ok (s, h', w') => .ok (s, { h' with session := some s }, w')
  | .error e => .error e

/-- `AbstractSessionHolder.__aexit__` (lines 54-60): `await self.close()`
regardless of the exception arguments. -/
def aexit (hld : Holder) (w : World) : Holder × World :=
  close hld w

/-- One holder-protocol invocation observed while running a scope. -/
inductive ScopeEvent where
  | getSessionCalled : ScopeEvent
  | bodyRan : ScopeEvent
  | closeCalled : ScopeEvent
deriving DecidableEq

/-- Result of running an `async with holder` scope. -/
inductive ScopeOutcome (ε : Type) where
  | ok : ScopeOutcome ε
  | bodyFailed : ε → ScopeOutcome ε
  | allocFailed : AllocError → ScopeOutcome ε
deriving DecidableEq

/-- Python `async with holder as s: body` semantics: call `__aenter__`;
if it raises, propagate without calling `__aexit__`; otherwise run the
body (which may mutate the world and may raise) and then call
`__aexit__` unconditionally, re-raising any body error afterwards.
The trace records each holder-method invocation. -/
def runScope {ε : Type} (ctorOk : KwArgs → Bool) (hld : Holder) (w : World)
    (body : SessionObj → World → (Except ε Unit) × World) :
    ScopeOutcome ε × Holder × World × List ScopeEvent :=
  match aenter ctorOk hld w with
  | .error e => (.allocFailed e, hld, w, [.getSessionCalled])
  | .ok (s, h1, w1) =>
    match body s w1 with
    | (.ok _, w2) =>
      (.ok, (aexit h1 w2).1, (aexit h1 w2).2,
        [.getSessionCalled, .bodyRan, .closeCalled])
    | (.error e, w2) =>
      (.bodyFailed e, (aexit h1 w2).1, (aexit h1 w2).2,
        [.getSessionCalled, .bodyRan, .closeCalled])

/-- `n` consecutive `close` calls. -/
def closeIter : Nat → Holder → World → Holder × World
  | 0, hld, w => (hld, w)
  | n + 1, hld, w => closeIter n (close hld w).1 (close hld w).2

/-- `n + 1` consecutive `get_session` calls, returning the last result
(errors propagate). -/
def getSessionN (ctorOk : KwArgs → Bool) :
    Nat → Holder → World → Except AllocError (SessionObj × Holder × World)
  | 0, hld, w => get_session ctorOk hld w
  | n + 1, hld, w =>
    match get_session ctorOk hld w with
    | .ok (_, h', w') => getSessionN ctorOk n h' w'
    | .error e => .error e

/-- World well-formedness: every closed id was actually issued.  Holds for
every world reachable from a fresh one and is preserved by all
operations. -/
def worldWF (w : World) : Bool :=
  w.closedIds.all (fun i => i < w.nextId)

/-- Holder/world well-formedness: the stored session, if any, was issued
by this world. -/
def holderWF (hld : Holder) (w : World) : Bool :=
  match hld.session with
  | none => true
  | some s => s.sid < w.nextId

/-- Sample states used by concrete witnesses. -/
def emptyHolder : Holder :=
  mkHolder []

def freshWorld : World :=
  ⟨0, []⟩

/-- A holder whose session `0` is allocated and open in `activeWorld`. -/
def activeHolder : Holder :=
  ⟨some ⟨0, []⟩, []⟩

def activeWorld : World :=
  ⟨1, []⟩

/-- Same holder after its session `0` has been closed. -/
def closedWorld : World :=
  ⟨1, [0]⟩

/-- A holder with a two-key configuration, used to exercise
`update_session_kwargs`. -/
def cfgHolder : Holder :=
  ⟨none, [("timeout", ConfigVal.num 1), ("proxy", ConfigVal.str "p")]⟩

def cfgOverrides : KwArgs :=
  [("timeout", ConfigVal.num 5)]

/-- The mock raw response of the response-fidelity property: status 200,
body `b"ok"`, header `X-Test: 1`, content type `text/plain`. -/
def mockRaw : ClientResponse :=
  ⟨200, [111, 107], [("X-Test", "1")], "text/plain"⟩

/-! Shared helper lemmas about the embedded operations. -/

theorem workingSession_some_iff {hld : Holder} {w : World} {s : SessionObj} :
    workingSession hld w = some s ↔
      hld.session = some s ∧ sessionClosed w s.sid = false := by
  unfold workingSession
  constructor
  · intro h
    split at h
    · exact absurd h (by simp)
    · rename_i s0 hs
      split at h
      · exact absurd h (by simp)
      · rename_i hc
        injection h with h
        subst h
        exact ⟨hs, by simpa using hc⟩
  · rintro ⟨hs, hc⟩
    rw [hs]
    simp [hc]

theorem workingOrder_false_iff {hld : Holder} {w : World} :
    _session_in_working_order hld w = false ↔ workingSession hld w = none := by
  unfold _session_in_working_order
  cases workingSession hld w <;> simp

theorem workingOrder_true_iff {hld : Holder} {w : World} :
    _session_in_working_order hld w = true ↔
      ∃ s, workingSession hld w = some s := by
  unfold _session_in_working_order
  cases workingSession hld w <;> simp

theorem close_of_not_working {hld : Holder} {w : World}
    (h : _session_in_working_order hld w = false) :
    close hld w = (hld, w) := by
  unfold close
  rw [workingOrder_false_iff.mp h]

theorem close_fst (hld : Holder) (w : World) : (close hld w).1 = hld := by
  unfold close
  cases workingSession hld w <;> rfl

theorem sessionClosed_nativeClose (w : World) (sid : Nat) :
    sessionClosed (sessionNativeClose w sid) sid = true := by
  simp [sessionClosed, sessionNativeClose, List.contains_cons]

theorem close_not_working (hld : Holder) (w : World) :
    _session_in_working_order (close hld w).1 (close hld w).2 = false := by
  cases hws : workingSession hld w with
  | none =>
    have hnw : _session_in_working_order hld w = false :=
      workingOrder_false_iff.mpr hws
    rw [close_of_not_working hnw]
    exact hnw
  | some s =>
    obtain ⟨hs, _⟩ := workingSession_some_iff.mp hws
    unfold close
    rw [hws]
    rw [workingOrder_false_iff, workingSession, hs]
    simp [sessionClosed_nativeClose]

theorem closeIter_of_not_working {hld : Holder} {w : World}
    (h : _session_in_working_order hld w = false) :
    ∀ n, closeIter n hld w = (hld, w) := by
  intro n
  induction n with
  | zero => rfl
  | succ m ih =>
    show closeIter m (close hld w).1 (close hld w).2 = (hld, w)
    rw [close_of_not_working h]
    exact ih

theorem fresh_not_closed {w : World} (hwf : worldWF w = true) :
    sessionClosed w w.nextId = false := by
  have hm : w.nextId ∉ w.closedIds := by
    intro hmem
    have h2 := List.all_eq_true.mp hwf _ hmem
    simp at h2
  simp [sessionClosed, List.contains, List.elem_iff, hm]

theorem dictUpdate_cons (m : KwArgs) (p : String × ConfigVal) (tl : KwArgs) :
    dictUpdate m (p :: tl) = dictUpdate (dictInsert m p.1 p.2) tl :=
  rfl

theorem dictGet_dictInsert (m : KwArgs) (k q : String) (v : ConfigVal) :
    dictGet (dictInsert m k v) q = if k = q then some v else dictGet m q := by
  induction m with
  | nil => rfl
  | cons p tl ih =>
    obtain ⟨k0, v0⟩ := p
    simp only [dictInsert]
    split
    · rename_i h0
      subst h0
      simp only [dictGet]
      split_ifs <;> simp_all
    · rename_i h0
      simp only [dictGet, ih]
      split_ifs <;> simp_all

theorem dictGet_dictUpdate (overrides : KwArgs) :
    ∀ (m : KwArgs) (q : String),
      dictGet (dictUpdate m overrides) q =
        match dictGetLast overrides q with
        | some v => some v
        | none => dictGet m q := by
  induction overrides with
  | nil =>
    intro m q
    rfl
  | cons p tl ih =>
    intro m q
    obtain ⟨k1, v1⟩ := p
    rw [dictUpdate_cons, ih]
    simp only [dictGetLast]
    cases hlast : dictGetLast tl q with
    | some v => rfl
    | none =>
      simp only [dictGet_dictInsert]
      by_cases hq : k1 = q
      · simp [hq]
      · simp [hq]

theorem instantiate_ok {ctorOk : KwArgs → Bool} {hld : Holder} {w : World}
    (hok : ctorOk hld.session_kwargs = true) :
    _instantiate_new_session ctorOk hld w =
      .ok (⟨w.nextId, hld.session_kwargs⟩,
           { hld with session := some ⟨w.nextId, hld.session_kwargs⟩ },
           { w with nextId := w.nextId + 1 }) := by
  unfold _instantiate_new_session newClientSession
  rw [if_pos hok]

theorem instantiate_fail {ctorOk : KwArgs → Bool} {hld : Holder} {w : World}
    (hfail : ctorOk hld.session_kwargs = false) :
    _instantiate_new_session ctorOk hld w = .error .allocationFailed := by
  unfold _instantiate_new_session
  rw [if_neg (by simp [hfail])]

theorem get_session_reuse {ctorOk : KwArgs → Bool} {hld : Holder} {w : World}
    {s : SessionObj} (hws : workingSession hld w = some s) :
    get_session ctorOk hld w = .ok (s, hld, w) := by
  unfold get_session
  rw [hws]

theorem get_session_realloc {ctorOk : KwArgs → Bool} {hld : Holder} {w : World}
    (hnw : _session_in_working_order hld w = false) :
    get_session ctorOk hld w = _instantiate_new_session ctorOk hld w := by
  unfold get_session
  rw [workingOrder_false_iff.mp hnw]

theorem get_session_ok_working {ctorOk : KwArgs → Bool} {hld h' : Holder}
    {w w' : World} {s : SessionObj}
    (hwf : worldWF w = true)
    (hres : get_session ctorOk hld w = .ok (s, h', w')) :
    workingSession h' w' = some s := by
  unfold get_session at hres
  cases hws : workingSession hld w with
  | some s0 =>
    rw [hws] at hres
    simp only [Except.ok.injEq, Prod.mk.injEq] at hres
    obtain ⟨hs, hh, hw⟩ := hres
    subst hs; subst hh; subst hw
    exact hws
  | none =>
    rw [hws] at hres
    unfold _instantiate_new_session newClientSession at hres
    cases hok : ctorOk hld.session_kwargs with
    | false =>
      rw [if_neg (by simp [hok])] at hres
      exact absurd hres (by simp)
    | true =>
      rw [if_pos hok] at hres
      simp only [Except.ok.injEq, Prod.mk.injEq] at hres
      obtain ⟨hs, hh, hw⟩ := hres
      subst hs; subst hh; subst hw
      rw [workingSession_some_iff]
      refine ⟨rfl, ?_⟩
      exact fresh_not_closed hwf

theorem get_session_fixed {ctorOk : KwArgs → Bool} {hld h' : Holder}
    {w w' : World} {s : SessionObj}
    (hwf : worldWF w = true)
    (hres : get_session ctorOk hld w = .ok (s, h', w')) :
    get_session ctorOk h' w' = .ok (s, h', w') :=
  get_session_reuse (get_session_ok_working hwf hres)

/-! Claim theorems. -/

/-- C7: `parse_response` returns a normalized `Response` whose four fields
are exactly the raw response's status, its fully read body bytes, its
headers and its content type; on the mock raw response (status 200, body
`b"ok"`, header `X-Test: 1`, content type `text/plain`) it yields exactly
those four field values, with the body the materialized byte list. -/
theorem parse_response_fidelity :
    (∀ (hld : Holder) (resp : ClientResponse),
      parse_response hld resp =
        ⟨resp.status, responseRead resp, resp.headers, resp.content_type⟩) ∧
    parse_response emptyHolder mockRaw =
      ⟨200, [111, 107], [("X-Test", "1")], "text/plain"⟩ ∧
    (parse_response emptyHolder mockRaw).body = mockRaw.bodyBytes :=
  ⟨fun _ _ => rfl, rfl, rfl⟩

/-- C9: calling `parse_response` or exiting the scope before any
`get_session` is not an error: `close` on an unallocated holder is a
no-op, and `parse_response`'s result does not depend on the holder's
allocation state. -/
theorem unallocated_holder_safe :
    (∀ (hld : Holder) (w : World), hld.session = none → close hld w = (hld, w)) ∧
    (∀ (h1 h2 : Holder) (resp : ClientResponse),
      parse_response h1 resp = parse_response h2 resp) := by
  constructor
  · intro hld w hs
    apply close_of_not_working
    rw [workingOrder_false_iff]
    unfold workingSession
    rw [hs]
  · intro h1 h2 resp
    rfl

theorem unallocated_holder_safe_witness :
    close emptyHolder freshWorld = (emptyHolder, freshWorld) ∧
    parse_response emptyHolder mockRaw = parse_response activeHolder mockRaw :=
  ⟨unallocated_holder_safe.1 emptyHolder freshWorld rfl,
   unallocated_holder_safe.2 emptyHolder activeHolder mockRaw⟩

/-- C10: `close` never clears the stored session reference (the holder
still references the now-closed session, whose closed-flag alone marks
the Closed state); the reference is changed only by the reallocation
path (`_instantiate_new_session`), not by `close`, not by
`update_session_kwargs`, and not by `get_session`'s reuse branch. -/
theorem close_preserves_reference :
    (∀ (hld : Holder) (w : World), (close hld w).1 = hld) ∧
    (∀ (hld : Holder) (overrides : KwArgs),
      (update_session_kwargs hld overrides).session = hld.session) ∧
    (∀ (ctorOk : KwArgs → Bool) (hld : Holder) (w : World) (s : SessionObj),
      workingSession hld w = some s →
        get_session ctorOk hld w = .ok (s, hld, w)) ∧
    (∀ (hld : Holder) (w : World) (s : SessionObj), hld.session = some s →
      _session_in_working_order hld w = !(sessionClosed w s.sid)) ∧
    (∀ (hld : Holder) (w : World) (s : SessionObj),
      workingSession hld w = some s →
        (close hld w).1.session = some s ∧
        sessionClosed (close hld w).2 s.sid = true) ∧
    (∀ (ctorOk : KwArgs → Bool) (hld h' : Holder) (w w' : World) (s' : SessionObj),
      _instantiate_new_session ctorOk hld w = .ok (s', h', w') →
        h'.session = some s') := by
  refine ⟨close_fst, fun _ _ => rfl, fun _ _ _ _ hws => get_session_reuse hws,
    ?_, ?_, ?_⟩
  · intro hld w s hs
    unfold _session_in_working_order workingSession
    rw [hs]
    cases hc : sessionClosed w s.sid <;> simp [hc]
  · intro hld w s hws
    obtain ⟨hs, _⟩ := workingSession_some_iff.mp hws
    unfold close
    rw [hws]
    exact ⟨hs, sessionClosed_nativeClose w s.sid⟩
  · intro ctorOk hld h' w w' s' hres
    unfold _instantiate_new_session newClientSession at hres
    cases hok : ctorOk hld.session_kwargs with
    | false =>
      rw [if_neg (by simp [hok])] at hres
      exact absurd hres (by simp)
    | true =>
      rw [if_pos hok] at hres
      simp only [Except.ok.injEq, Prod.mk.injEq] at hres
      obtain ⟨hs, hh, _⟩ := hres
      rw [← hh, ← hs]

theorem close_preserves_reference_witness :
    (close activeHolder activeWorld).1 = activeHolder ∧
    get_session (fun _ => true) activeHolder activeWorld =
      .ok (⟨0, []⟩, activeHolder, activeWorld) ∧
    (close activeHolder activeWorld).1.session = some ⟨0, []⟩ ∧
    sessionClosed (close activeHolder activeWorld).2 0 = true :=
  ⟨close_preserves_reference.1 activeHolder activeWorld,
   close_preserves_reference.2.2.1 (fun _ => true) activeHolder activeWorld
     ⟨0, []⟩ rfl,
   (close_preserves_reference.2.2.2.2.1 activeHolder activeWorld ⟨0, []⟩ rfl).1,
   (close_preserves_reference.2.2.2.2.1 activeHolder activeWorld ⟨0, []⟩ rfl).2⟩

/-- C8: the liveness predicate `_session_in_working_order` holds iff a
session is allocated and its own closed-flag is false, and this single
predicate decides `get_session`'s reuse-vs-reallocate branch and
`close`'s act-vs-no-op branch. -/
theorem liveness_predicate_characterization :
    (∀ (hld : Holder) (w : World),
      _session_in_working_order hld w = true ↔
        ∃ s, hld.session = some s ∧ sessionClosed w s.sid = false) ∧
    (∀ (ctorOk : KwArgs → Bool) (hld : Holder) (w : World),
      _session_in_working_order hld w = true →
        ∃ s, hld.session = some s ∧ get_session ctorOk hld w = .ok (s, hld, w)) ∧
    (∀ (ctorOk : KwArgs → Bool) (hld : Holder) (w : World),
      _session_in_working_order hld w = false →
        get_session ctorOk hld w = _instantiate_new_session ctorOk hld w) ∧
    (∀ (hld : Holder) (w : World),
      _session_in_working_order hld w = false → close hld w = (hld, w)) ∧
    (∀ (hld : Holder) (w : World) (s : SessionObj),
      _session_in_working_order hld w = true → hld.session = some s →
        close hld w = (hld, sessionNativeClose w s.sid)) := by
  refine ⟨?_, ?_, fun _ _ _ h => get_session_realloc h,
    fun _ _ h => close_of_not_working h, ?_⟩
  · intro hld w
    rw [workingOrder_true_iff]
    exact exists_congr fun s => workingSession_some_iff
  · intro ctorOk hld w ht
    obtain ⟨s, hws⟩ := workingOrder_true_iff.mp ht
    obtain ⟨hs, _⟩ := workingSession_some_iff.mp hws
    exact ⟨s, hs, get_session_reuse hws⟩
  · intro hld w s ht hs
    obtain ⟨s0, hws⟩ := workingOrder_true_iff.mp ht
    obtain ⟨hs0, _⟩ := workingSession_some_iff.mp hws
    rw [hs] at hs0
    injection hs0 with he
    unfold close
    rw [hws, he]

theorem liveness_predicate_characterization_witness :
    (_session_in_working_order activeHolder activeWorld = true ↔
      ∃ s, activeHolder.session = some s ∧
        sessionClosed activeWorld s.sid = false) ∧
    get_session (fun _ => true) activeHolder closedWorld =
      _instantiate_new_session (fun _ => true) activeHolder closedWorld ∧
    close emptyHolder freshWorld = (emptyHolder, freshWorld) ∧
    close activeHolder activeWorld =
      (activeHolder, sessionNativeClose activeWorld 0) :=
  ⟨liveness_predicate_characterization.1 activeHolder activeWorld,
   liveness_predicate_characterization.2.2.1 (fun _ => true) activeHolder
     closedWorld rfl,
   liveness_predicate_characterization.2.2.2.1 emptyHolder freshWorld rfl,
   liveness_predicate_characterization.2.2.2.2 activeHolder activeWorld
     ⟨0, []⟩ rfl rfl⟩

/-- C1: after any successful `get_session` call, every further
`get_session` call (any number of them, with no intervening `close` and
no external closure) returns the identical session instance as that call
and leaves holder and world unchanged: `get_session` is idempotent on an
Active holder. -/
theorem get_session_idempotent_reuse
    (ctorOk : KwArgs → Bool) (hld h' : Holder) (w w' : World) (s : SessionObj)
    (hwf : worldWF w = true)
    (hres : get_session ctorOk hld w = .ok (s, h', w')) :
    ∀ n, getSessionN ctorOk n h' w' = .ok (s, h', w') := by
  have hfix := get_session_fixed hwf hres
  intro n
  induction n with
  | zero => exact hfix
  | succ m ih =>
    show (match get_session ctorOk h' w' with
      | .ok (_, h2, w2) => getSessionN ctorOk m h2 w2
      | .error e => .error e) = .ok (s, h', w')
    rw [hfix]
    exact ih

theorem get_session_idempotent_reuse_witness :
    getSessionN (fun _ => true) 2 ⟨some ⟨0, []⟩, []⟩ ⟨1, []⟩ =
      .ok (⟨0, []⟩, ⟨some ⟨0, []⟩, []⟩, ⟨1, []⟩) :=
  get_session_idempotent_reuse (fun _ => true) emptyHolder ⟨some ⟨0, []⟩, []⟩
    freshWorld ⟨1, []⟩ ⟨0, []⟩ rfl rfl 2

/-- C2 counterexample: with N = 0 consecutive `close` calls on an Active
holder (allowed by the claim's "every N >= 0 ... from any state"), the
holder does not end in a Closed/Unallocated-equivalent state — it is
still in working order. -/
theorem close_zero_times_still_active :
    ¬ (_session_in_working_order (closeIter 0 activeHolder activeWorld).1
        (closeIter 0 activeHolder activeWorld).2 = false) := by
  decide

/-- C2 (amended to N >= 1 for the final-state clause): `close` never
errors (it is a total operation); when the session is absent or already
closed it is a no-op; and after N >= 1 consecutive `close` calls from
any state the holder is in a Closed/Unallocated-equivalent state (not in
working order). -/
theorem close_idempotent_amended :
    (∀ (hld : Holder) (w : World),
      _session_in_working_order hld w = false → close hld w = (hld, w)) ∧
    (∀ (n : Nat) (hld : Holder) (w : World), 1 ≤ n →
      _session_in_working_order (closeIter n hld w).1
        (closeIter n hld w).2 = false) := by
  refine ⟨fun _ _ h => close_of_not_working h, ?_⟩
  intro n hld w hn
  cases n with
  | zero => exact absurd hn (by simp)
  | succ m =>
    show _session_in_working_order
        (closeIter m (close hld w).1 (close hld w).2).1
        (closeIter m (close hld w).1 (close hld w).2).2 = false
    rw [closeIter_of_not_working (close_not_working hld w) m]
    exact close_not_working hld w

theorem close_idempotent_amended_witness :
    close emptyHolder freshWorld = (emptyHolder, freshWorld) ∧
    _session_in_working_order (closeIter 2 activeHolder activeWorld).1
      (closeIter 2 activeHolder activeWorld).2 = false :=
  ⟨close_idempotent_amended.1 emptyHolder freshWorld rfl,
   close_idempotent_amended.2 2 activeHolder activeWorld (by decide)⟩

/-- C4: when the holder's current session has been closed (by `close` or
by any external actor) and the transport constructor accepts the current
kwargs, the next `get_session` allocates a fresh session from the
current config, stores it as the holder's current session, and returns
an instance distinct from the closed one. -/
theorem reallocation_after_close
    (ctorOk : KwArgs → Bool) (hld : Holder) (w : World) (s0 : SessionObj)
    (hsess : hld.session = some s0)
    (hclosed : sessionClosed w s0.sid = true)
    (hh : holderWF hld w = true)
    (hok : ctorOk hld.session_kwargs = true) :
    get_session ctorOk hld w =
      .ok (⟨w.nextId, hld.session_kwargs⟩,
           { hld with session := some ⟨w.nextId, hld.session_kwargs⟩ },
           { w with nextId := w.nextId + 1 }) ∧
    w.nextId ≠ s0.sid ∧
    (⟨w.nextId, hld.session_kwargs⟩ : SessionObj) ≠ s0 := by
  have hnw : _session_in_working_order hld w = false := by
    rw [workingOrder_false_iff]
    unfold workingSession
    rw [hsess]
    simp [hclosed]
  have hsid : s0.sid < w.nextId := by
    unfold holderWF at hh
    rw [hsess] at hh
    simpa using hh
  refine ⟨?_, by omega, ?_⟩
  · rw [get_session_realloc hnw]
    exact instantiate_ok hok
  · intro he
    have hids : w.nextId = s0.sid := congrArg SessionObj.sid he
    omega

theorem reallocation_after_close_witness :
    get_session (fun _ => true) activeHolder closedWorld =
      .ok (⟨1, []⟩, ⟨some ⟨1, []⟩, []⟩, ⟨2, [0]⟩) ∧
    (1 : Nat) ≠ 0 ∧
    (⟨1, []⟩ : SessionObj) ≠ ⟨0, []⟩ :=
  reallocation_after_close (fun _ => true) activeHolder closedWorld ⟨0, []⟩
    rfl rfl rfl rfl

/-- C6: `update_session_kwargs` merges the overrides into the stored
configuration as a shallow map union with last-write-wins on key
collision; it leaves the holder's session reference (and hence any live
session object and its liveness) untouched, and only a subsequent
allocation builds a session from the merged configuration. -/
theorem update_config_merge_isolation
    (hld : Holder) (overrides : KwArgs) :
    (∀ q, dictGet (update_session_kwargs hld overrides).session_kwargs q =
        match dictGetLast overrides q with
        | some v => some v
        | none => dictGet hld.session_kwargs q) ∧
    (update_session_kwargs hld overrides).session = hld.session ∧
    (∀ w, _session_in_working_order (update_session_kwargs hld overrides) w =
        _session_in_working_order hld w) ∧
    (∀ (ctorOk : KwArgs → Bool) (w : World),
      ctorOk (dictUpdate hld.session_kwargs overrides) = true →
      _instantiate_new_session ctorOk (update_session_kwargs hld overrides) w =
        .ok (⟨w.nextId, dictUpdate hld.session_kwargs overrides⟩,
             ⟨some ⟨w.nextId, dictUpdate hld.session_kwargs overrides⟩,
              dictUpdate hld.session_kwargs overrides⟩,
             { w with nextId := w.nextId + 1 })) := by
  refine ⟨fun q => dictGet_dictUpdate overrides hld.session_kwargs q,
    rfl, fun _ => rfl, ?_⟩
  intro ctorOk w hok
  exact instantiate_ok hok

theorem update_config_merge_isolation_witness :
    dictGet (update_session_kwargs cfgHolder cfgOverrides).session_kwargs
      "timeout" = some (ConfigVal.num 5) ∧
    dictGet (update_session_kwargs cfgHolder cfgOverrides).session_kwargs
      "proxy" = some (ConfigVal.str "p") ∧
    (update_session_kwargs cfgHolder cfgOverrides).session =
      cfgHolder.session ∧
    _instantiate_new_session (fun _ => true)
        (update_session_kwargs cfgHolder cfgOverrides) freshWorld =
      .ok (⟨0, dictUpdate cfgHolder.session_kwargs cfgOverrides⟩,
           ⟨some ⟨0, dictUpdate cfgHolder.session_kwargs cfgOverrides⟩,
            dictUpdate cfgHolder.session_kwargs cfgOverrides⟩,
           ⟨1, []⟩) := by
  refine ⟨?_, ?_, ?_, ?_⟩
  · have h := (update_config_merge_isolation cfgHolder cfgOverrides).1 "timeout"
    simpa using h
  · have h := (update_config_merge_isolation cfgHolder cfgOverrides).1 "proxy"
    simpa using h
  · exact (update_config_merge_isolation cfgHolder cfgOverrides).2.1
  · exact (update_config_merge_isolation cfgHolder cfgOverrides).2.2.2
      (fun _ => true) freshWorld rfl

/-- C3: once scope entry succeeds, the scope yields the session obtained
by `get_session` to the body and — whether the body succeeds or raises —
exits through exactly one `close` invocation, whose result is the final
holder/world state, with the body's error preserved in the outcome. -/
theorem scope_close_exactly_once {ε : Type} (ctorOk : KwArgs → Bool)
    (hld h1 : Holder) (w w1 : World) (s : SessionObj)
    (body : SessionObj → World → (Except ε Unit) × World)
    (henter : aenter ctorOk hld w = .ok (s, h1, w1)) :
    runScope ctorOk hld w body =
      ((match (body s w1).1 with
        | .ok _ => ScopeOutcome.ok
        | .error e => ScopeOutcome.bodyFailed e),
       (close h1 (body s w1).2).1, (close h1 (body s w1).2).2,
       [ScopeEvent.getSessionCalled, ScopeEvent.bodyRan,
        ScopeEvent.closeCalled]) ∧
    ((runScope ctorOk hld w body).2.2.2).count ScopeEvent.closeCalled = 1 := by
  have hrun : runScope ctorOk hld w body =
      ((match (body s w1).1 with
        | .ok _ => ScopeOutcome.ok
        | .error e => ScopeOutcome.bodyFailed e),
       (close h1 (body s w1).2).1, (close h1 (body s w1).2).2,
       [ScopeEvent.getSessionCalled, ScopeEvent.bodyRan,
        ScopeEvent.closeCalled]) := by
    unfold runScope
    rw [henter]
    rcases hb : body s w1 with ⟨r, w2⟩
    cases r with
    | ok u => simp [hb, aexit]
    | error e => simp [hb, aexit]
  refine ⟨hrun, ?_⟩
  rw [hrun]
  rfl

theorem scope_close_exactly_once_witness :
    runScope (fun _ => true) emptyHolder freshWorld
        (fun _ w => ((Except.error true : Except Bool Unit), w)) =
      (ScopeOutcome.bodyFailed true, ⟨some ⟨0, []⟩, []⟩, ⟨1, [0]⟩,
        [ScopeEvent.getSessionCalled, ScopeEvent.bodyRan,
         ScopeEvent.closeCalled]) ∧
    ((runScope (fun _ => true) emptyHolder freshWorld
        (fun _ w => ((Except.error true : Except Bool Unit), w))).2.2.2).count
      ScopeEvent.closeCalled = 1 :=
  scope_close_exactly_once (fun _ => true) emptyHolder ⟨some ⟨0, []⟩, []⟩
    freshWorld ⟨1, []⟩ ⟨0, []⟩ (fun _ w => (Except.error true, w)) rfl

/-- C5: an allocation failure during scoped acquisition aborts entry: the
error propagates as the scope outcome, the body never runs, the holder
and world are left exactly unchanged (entry cannot partially succeed),
and consequently the exit-triggered `close` is not invoked. -/
theorem alloc_failure_aborts_scope {ε : Type} (ctorOk : KwArgs → Bool)
    (hld : Holder) (w : World)
    (body : SessionObj → World → (Except ε Unit) × World)
    (hfail : ctorOk hld.session_kwargs = false)
    (hnw : _session_in_working_order hld w = false) :
    runScope ctorOk hld w body =
      (ScopeOutcome.allocFailed AllocError.allocationFailed, hld, w,
        [ScopeEvent.getSessionCalled]) ∧
    ((runScope ctorOk hld w body).2.2.2).count ScopeEvent.closeCalled = 0 ∧
    (∀ (s : SessionObj) (h1 : Holder) (w1 : World),
      aenter ctorOk hld w ≠ .ok (s, h1, w1)) := by
  have hget : get_session ctorOk hld w = .error .allocationFailed := by
    rw [get_session_realloc hnw]
    exact instantiate_fail hfail
  have henter : aenter ctorOk hld w = .error .allocationFailed := by
    unfold aenter
    rw [hget]
  have hrun : runScope ctorOk hld w body =
      (ScopeOutcome.allocFailed AllocError.allocationFailed, hld, w,
        [ScopeEvent.getSessionCalled]) := by
    unfold runScope
    rw [henter]
  refine ⟨hrun, ?_, ?_⟩
  · rw [hrun]
    rfl
  · intro s h1 w1 hcon
    rw [henter] at hcon
    exact absurd hcon (by simp)

theorem alloc_failure_aborts_scope_witness :
    runScope (fun _ => false) emptyHolder freshWorld
        (fun _ w => ((Except.ok () : Except Bool Unit), w)) =
      (ScopeOutcome.allocFailed AllocError.allocationFailed, emptyHolder,
        freshWorld, [ScopeEvent.getSessionCalled]) ∧
    ((runScope (fun _ => false) emptyHolder freshWorld
        (fun _ w => ((Except.ok () : Except Bool Unit), w))).2.2.2).count
      ScopeEvent.closeCalled = 0 ∧
    (∀ (s : SessionObj) (h1 : Holder) (w1 : World),
      aenter (fun _ => false) emptyHolder freshWorld ≠ .ok (s, h1, w1)) :=
  alloc_failure_aborts_scope (fun _ => false) emptyHolder freshWorld
    (fun _ w => (Except.ok (), w)) rfl rfl

end GlQiwiApi
